import Mathlib

/-!
Shallow embedding of the StudioNavi multi-studio availability aggregation flow
(`src/frontend/src/components/StudioAvailabilityResults.tsx`) together with the
HTTP-client error handling it relies on (`src/frontend/src/lib/apiClient.ts`)
and the time-range grouping helper (`formatTimeRanges`, also in
`src/frontend/src/components/AvailabilityTimeSlots.tsx`).

JavaScript modelling conventions used throughout:
- a JS number that can be `NaN` is `Option Int` (`none` = `NaN`); the studio
  ids handled by this flow are integers, so `Int` suffices for the non-NaN case;
- `===` on such numbers is `jsStrictEq` (`NaN === x` is false for every `x`);
  `Map` key lookup uses SameValueZero (`sameValueZero`, under which `NaN`
  matches `NaN`);
- progress arithmetic (`prev + 100 / studios.length`) is modelled over exact
  rationals `ℚ`; for the N that this flow is run with (1..5 studios) the
  binary64 computation performed by JS lands on the same values, because
  100/N is exactly representable for N ∈ {1,2,4,5} and for N = 3 the final
  round-to-nearest-even addition yields exactly 100;
- the asynchronous run is sequential in the source (`BATCH_SIZE = 1`, each
  batch awaited before the next), so it is embedded as a pure function from
  the backend behaviour to the list of per-studio outcomes, in input order.
-/

namespace StudioNavi

/-- A JS number in positions where `NaN` can occur: `none` models `NaN`. -/
abbrev JsNumber := Option Int

/-- JS strict equality `===` on numbers: `NaN` is not equal to anything,
including itself. Used by `availabilityData.find((a) => a.studioId === studio.id)`. -/
def jsStrictEq (a b : JsNumber) : Bool :=
  match a, b with
  | some x, some y => x == y
  | _, _ => false

/-- SameValueZero, the key-equality used by JS `Map` (`Map.set` / `Map.has` /
`Map.get`): like `===` except that `NaN` matches `NaN`. -/
def sameValueZero (a b : JsNumber) : Bool :=
  match a, b with
  | some x, some y => x == y
  | none, none => true
  | _, _ => false

/-- Value of a list of decimal digit characters, most significant first. -/
def digitsToNat (ds : List Char) : Nat :=
  ds.foldl (fun n c => 10 * n + (c.toNat - 48)) 0

/-- JS `parseInt(s)` on decimal inputs: skip leading spaces, optional sign,
then the longest leading run of decimal digits; no digits means `NaN`
(`none`). (The hexadecimal `0x` prefix of `parseInt` is irrelevant to the
server-provided ids handled here and is not modelled.) -/
def parseIntJS (s : String) : JsNumber :=
  let cs := s.toList.dropWhile (fun c => c == ' ')
  match cs with
  | '-' :: rest =>
    let ds := rest.takeWhile Char.isDigit
    if ds.isEmpty then none else some (-(digitsToNat ds : Int))
  | '+' :: rest =>
    let ds := rest.takeWhile Char.isDigit
    if ds.isEmpty then none else some (digitsToNat ds : Int)
  | _ =>
    let ds := cs.takeWhile Char.isDigit
    if ds.isEmpty then none else some (digitsToNat ds : Int)

/-- `interface Studio` (StudioAvailabilityResults.tsx). -/
structure Studio where
  id : Int
  name : String
  address : String
  hours : String
  selfBookingStart : String
deriving DecidableEq, Repr

/-- `interface AvailableTimeSlot` (StudioAvailabilityResults.tsx). -/
structure AvailableTimeSlot where
  start : String
  «end» : String
  roomName : String
  startsAtThirty : Bool
deriving DecidableEq, Repr

/-- `interface StudioAvailability`. `studioId` is a `JsNumber` because on the
success path it is produced by `parseInt` of a server-provided string and can
be `NaN`. -/
structure StudioAvailability where
  studioId : JsNumber
  studioName : String
  availableRanges : List AvailableTimeSlot
deriving DecidableEq, Repr

/-- `interface FetchError` (the opaque `details?: Record<string, unknown>`
debug payload carries no information used by any consumer and is not
modelled). -/
structure FetchError where
  message : String
  code : String
deriving DecidableEq, Repr

/-- `interface FetchResult`: `data` is non-optional in the source interface,
and indeed every `onProgress` call supplies it. -/
structure FetchResult where
  data : StudioAvailability
  error : Option FetchError
deriving DecidableEq, Repr

/-- `class ApiError extends Error` (message + machine code; `details` not
modelled, see `FetchError`). -/
structure ApiError where
  message : String
  code : String
deriving DecidableEq, Repr

/-- The request issued by `fetchStudioAvailability`:
`GET /studios/{studioId}/availability?date=..&start=..&end=..&duration=..`
(`duration` is sent as `duration.toString()`). -/
structure ApiRequest where
  studioId : Int
  date : String
  start : String
  «end» : String
  duration : String
deriving DecidableEq, Repr

/-- The `data` field of an `ApiSuccessResponse` as consumed by the client:
`{ studioId: string, studioName, date, availableRanges, meta: { timezone } }`. -/
structure SuccessData where
  studioId : String
  studioName : String
  date : String
  availableRanges : List AvailableTimeSlot
  timezone : String
deriving DecidableEq, Repr

/-- The `error` member of a structured server error payload
`{ status: "error", error: { code, message } }`. -/
structure ErrorPayload where
  code : String
  message : String
deriving DecidableEq, Repr

/-- The response body attached to a failed HTTP response, as the two places
that inspect it see it: the response interceptor reads the top-level
`data?.message` field; the (axios-branch) code in `fetchStudioAvailability`
checks `data?.status === "error"` and then reads `data.error.{message,code}`.
`errorPayload = some p` models a body of the structured shape
`{ status: "error", error: p }`; `message` models an optional top-level
`message` field. -/
structure ResponseBody where
  message : Option String
  errorPayload : Option ErrorPayload
deriving DecidableEq, Repr

/-- `error.response` of an axios error: the server answered with a non-2xx
status and this body. -/
structure ErrorResponse where
  status : Nat
  data : ResponseBody
deriving DecidableEq, Repr

/-- An axios rejection as delivered to the response interceptor's error
handler: `response` present means the server answered; otherwise `request`
true means the request was sent but no response arrived (network failure or
timeout); otherwise the request could not even be set up. -/
structure AxiosErrorInfo where
  message : String
  code : Option String
  response : Option ErrorResponse
  request : Bool
deriving DecidableEq, Repr

/-- What the HTTP layer does for one request: either a 2xx success with an
`ApiSuccessResponse` body, or an axios-level failure. -/
inductive BackendBehavior where
  | success (data : SuccessData)
  | failure (e : AxiosErrorInfo)
deriving DecidableEq, Repr

/-- A deterministic backend: one fixed behaviour per request. -/
abbrev Backend := ApiRequest → BackendBehavior

/-- A plain JS `Error` (only carries a message; `isAxiosError` is false on
it). -/
structure PlainError where
  message : String
deriving DecidableEq, Repr

/-- The error value observed by a `catch` around `apiClient.get`: either a
plain `Error` or an `AxiosError` (distinguished in the source by
`isAxiosError`). -/
inductive JsError where
  | plain (e : PlainError)
  | axios (e : AxiosErrorInfo)
deriving DecidableEq, Repr

/-- The rejection handler of `apiClient.interceptors.response.use`
(apiClient.ts, lines 99-136): every axios error is rewrapped into a plain
`Error` whose message is
- `error.response.data?.message || "サーバーエラーが発生しました"` when the
  server responded (note: the top-level `message` field, NOT the nested
  `error.message` of a structured payload),
- `"サーバーとの接続に失敗しました"` when the request got no response,
- `"リクエストの設定中にエラーが発生しました"` otherwise. -/
def interceptReject (e : AxiosErrorInfo) : PlainError :=
  match e.response with
  | some r => ⟨r.data.message.getD "サーバーエラーが発生しました"⟩
  | none =>
    if e.request then ⟨"サーバーとの接続に失敗しました"⟩
    else ⟨"リクエストの設定中にエラーが発生しました"⟩

/-- `apiClient.get` as seen by callers: a success resolves with the body; any
failure is routed through the response interceptor's rejection handler, so
callers only ever catch a plain `Error`. -/
def apiClientGet (backend : Backend) (req : ApiRequest) :
    Except JsError SuccessData :=
  match backend req with
  | .success d => .ok d
  | .failure e => .error (.plain (interceptReject e))

/-- `fetchStudioAvailability` (StudioAvailabilityResults.tsx, lines 99-148).
On success the returned `studioId` is `parseInt(response.data.data.studioId)`
of the server-echoed string. The `catch` branches mirror the source:
the `isAxiosError` branch (with its verbatim structured-error surfacing and
its `error.message || ...` / `error.code || "API_ERROR"` fallbacks) handles
`.axios` errors; a plain `Error` (which is an `instanceof Error`) becomes
`ApiError(error.message, "UNKNOWN_ERROR")`. The final
`ApiError("予期せぬエラーが発生しました", "UNKNOWN_ERROR")` for non-`Error`
throwables has no counterpart here because every rejection in the model is an
`Error` object. -/
def fetchStudioAvailability (backend : Backend) (studioId : Int)
    (date start «end» : String) (duration : Int) :
    Except ApiError StudioAvailability :=
  match apiClientGet backend ⟨studioId, date, start, «end», toString duration⟩ with
  | .ok d =>
    .ok ⟨parseIntJS d.studioId, d.studioName, d.availableRanges⟩
  | .error err =>
    match err with
    | .axios e =>
      match e.response with
      | some r =>
        match r.data.errorPayload with
        | some p => .error ⟨p.message, p.code⟩
        | none =>
          .error ⟨if e.message = "" then "APIリクエストに失敗しました" else e.message,
                  match e.code with
                  | some c => if c = "" then "API_ERROR" else c
                  | none => "API_ERROR"⟩
      | none =>
        .error ⟨if e.message = "" then "APIリクエストに失敗しました" else e.message,
                match e.code with
                | some c => if c = "" then "API_ERROR" else c
                | none => "API_ERROR"⟩
    | .plain e => .error ⟨e.message, "UNKNOWN_ERROR"⟩

/-- The caller-supplied query arguments threaded through a run:
`(formattedDate, searchStartTime, searchEndTime, durationHours)`. -/
structure QueryArgs where
  date : String
  start : String
  «end» : String
  duration : Int
deriving DecidableEq, Repr

/-- The request `fetchStudioAvailability` issues for one studio under query
arguments `w`. -/
def mkRequest (w : QueryArgs) (s : Studio) : ApiRequest :=
  ⟨s.id, w.date, w.start, w.«end», toString w.duration⟩

/-- The per-studio body of `processBatch` (lines 158-195): await the fetch;
on success report `{ data }`; on failure report a `FetchResult` whose data is
`{ studioId: studio.id, studioName: studio.name, availableRanges: [] }` and
whose error carries the caught `ApiError`'s message and
`code || "UNKNOWN_ERROR"`. (The default
`{ message: "空き状況の取得に失敗しました", code: "FETCH_ERROR" }` is dead in
the model because `fetchStudioAvailability` only ever throws `ApiError`s.) -/
def processStudio (backend : Backend) (w : QueryArgs) (studio : Studio) :
    FetchResult :=
  match fetchStudioAvailability backend studio.id w.date w.start w.«end» w.duration with
  | .ok d => ⟨d, none⟩
  | .error e =>
    ⟨⟨some studio.id, studio.name, []⟩,
     some ⟨e.message, if e.code = "" then "UNKNOWN_ERROR" else e.code⟩⟩

/-- `processBatch`: one `FetchResult` per studio of the batch, paired with the
studio whose request produced it. With `BATCH_SIZE = 1` every batch is a
singleton, so `Promise.all` resolution order is the batch order. -/
def processBatch (backend : Backend) (w : QueryArgs) (batch : List Studio) :
    List (Studio × FetchResult) :=
  batch.map (fun s => (s, processStudio backend w s))

/-- `const BATCH_SIZE = 1` (StudioAvailabilityResults.tsx, line 91). -/
def BATCH_SIZE : Nat := 1

/-- `const FETCH_DELAY = 200` (line 92). -/
def FETCH_DELAY : Nat := 200

/-- The batches formed by the loop
`for (let i = 0; i < studios.length; i += BATCH_SIZE)` with
`studios.slice(i, i + BATCH_SIZE)`. -/
def batchSlices (studios : List Studio) (i : Nat) : List (List Studio) :=
  if i < studios.length then
    (studios.drop i).take BATCH_SIZE :: batchSlices studios (i + BATCH_SIZE)
  else []
termination_by studios.length - i
decreasing_by simp [BATCH_SIZE]; omega

/-- One complete run of the batch loop: the per-studio outcomes, in the order
the (sequential, size-1) batches produce them. -/
def runOutcomes (backend : Backend) (w : QueryArgs) (studios : List Studio) :
    List (Studio × FetchResult) :=
  ((batchSlices studios 0).map (processBatch backend w)).flatten

/-- An awaited step of the batch loop: either a batch of studios whose
requests are issued (and fully awaited) together, or an inter-batch
`sleep(FETCH_DELAY)`. The loop body is strictly sequential — each event
completes before the next begins — so a run's schedule is a list of events. -/
inductive ScheduleEvent where
  | batch (studios : List Studio)
  | sleep (ms : Nat)
deriving DecidableEq, Repr

/-- The schedule generated by the loop
`for (let i = 0; i < studios.length; i += BATCH_SIZE)`: issue
`studios.slice(i, i + BATCH_SIZE)`, then `await sleep(FETCH_DELAY)` exactly
when `i + BATCH_SIZE < studios.length`. -/
def scheduleEvents (studios : List Studio) (i : Nat) : List ScheduleEvent :=
  if i < studios.length then
    ScheduleEvent.batch ((studios.drop i).take BATCH_SIZE) ::
      (if i + BATCH_SIZE < studios.length then
        ScheduleEvent.sleep FETCH_DELAY :: scheduleEvents studios (i + BATCH_SIZE)
      else scheduleEvents studios (i + BATCH_SIZE))
  else []
termination_by studios.length - i
decreasing_by all_goals simp [BATCH_SIZE]; omega

/-- JS `Map.set` on an insertion-ordered association list: an existing key
(SameValueZero) is updated in place, a new key is appended. -/
def mapSet (m : List (JsNumber × String)) (k : JsNumber) (v : String) :
    List (JsNumber × String) :=
  match m with
  | [] => [(k, v)]
  | (k', v') :: rest =>
    if sameValueZero k' k then (k', v) :: rest else (k', v') :: mapSet rest k v

/-- JS `Map.has`. -/
def mapHas (m : List (JsNumber × String)) (k : JsNumber) : Bool :=
  m.any (fun p => sameValueZero p.1 k)

/-- JS `Map.get` (`undefined` = `none`). -/
def mapGet (m : List (JsNumber × String)) (k : JsNumber) : Option String :=
  (m.find? (fun p => sameValueZero p.1 k)).map (·.2)

/-- The React state owned by one mounted `StudioAvailabilityResults`:
`availabilityData`, `errors` (a JS `Map` in insertion order), `progress`
(exact-rational model of the JS number) and `loading`. -/
structure AggState where
  availabilityData : List StudioAvailability
  errors : List (JsNumber × String)
  progress : ℚ
  loading : Bool
deriving DecidableEq, Repr

/-- The state after the four setters at the top of
`fetchAllStudioAvailability`: `setLoading(true); setProgress(0);
setErrors(new Map()); setAvailabilityData([])`. -/
def resetState : AggState :=
  { availabilityData := [], errors := [], progress := 0, loading := true }

/-- The `onProgress` callback passed to `processBatch` (lines 250-262),
applied to the current state: `if (result.data)` — always true, `data` is a
non-null object — append `result.data`; `if (result.error)` record
`errors.set(result.data.studioId, result.error.message)`; then
`setProgress((prev) => prev + 100 / studios.length)` where `totalStudios` is
the length of the run's studio list. The callback closure carries no run
identity, so a late callback of an abandoned run performs exactly this update
on whatever the current state is. -/
def applyResult (totalStudios : Nat) (st : AggState) (r : FetchResult) :
    AggState :=
  let st1 := { st with availabilityData := st.availabilityData ++ [r.data] }
  let st2 :=
    match r.error with
    | some e => { st1 with errors := mapSet st1.errors r.data.studioId e.message }
    | none => st1
  { st2 with progress := st2.progress + 100 / (totalStudios : ℚ) }

/-- The state after the first `k` outcomes of a run have been reported
(starting from the freshly reset state; `loading` is still true until the
loop finishes). -/
def stateAfter (backend : Backend) (w : QueryArgs) (studios : List Studio)
    (k : Nat) : AggState :=
  ((runOutcomes backend w studios).take k).foldl
    (fun st p => applyResult studios.length st p.2) resetState

/-- The state when `fetchAllStudioAvailability` returns: every outcome
reported, then `setLoading(false)`. -/
def runFinalState (backend : Backend) (w : QueryArgs) (studios : List Studio) :
    AggState :=
  let st := (runOutcomes backend w studios).foldl
    (fun st p => applyResult studios.length st p.2) resetState
  { st with loading := false }

/-- The ranges the card of studio `s` renders:
`availabilityData.find((a) => a.studioId === studio.id)?.availableRanges || []`
(lines 413-417). The lookup uses strict equality, under which a `NaN`
`studioId` never matches. -/
def displayedRanges (st : AggState) (s : Studio) : List AvailableTimeSlot :=
  ((st.availabilityData.find? (fun a => jsStrictEq a.studioId (some s.id))).map
    (·.availableRanges)).getD []

/-- The badge text of lines 455-459: `hasError ? "取得失敗" :
availableRanges.length > 0 ? "空きあり" : "満室"`. -/
def availabilityBadge (hasError : Bool) (numRanges : Nat) : String :=
  if hasError then "取得失敗" else if numRanges > 0 then "空きあり" else "満室"

/-- The badge the card of studio `s` shows in state `st`
(`hasError = errors.has(studio.id)`). -/
def displayedBadge (st : AggState) (s : Studio) : String :=
  availabilityBadge (mapHas st.errors (some s.id)) (displayedRanges st s).length

/-- `interface GroupedAvailability`. -/
structure GroupedAvailability where
  roomName : String
  timeRanges : List String
deriving DecidableEq, Repr

/-- One step of `_.groupBy(ranges, "roomName")` building a plain JS object:
an already-present key gets the slot appended to its group, a new key is
created after the existing ones (property insertion order). -/
def groupStep (acc : List (String × List AvailableTimeSlot))
    (slot : AvailableTimeSlot) : List (String × List AvailableTimeSlot) :=
  if acc.any (fun p => p.1 == slot.roomName) then
    acc.map (fun p =>
      if p.1 == slot.roomName then (p.1, p.2 ++ [slot]) else p)
  else acc ++ [(slot.roomName, [slot])]

/-- `_.groupBy(ranges, "roomName")`: keys in first-appearance (insertion)
order, each key's slots in input order. -/
def groupByRoom (ranges : List AvailableTimeSlot) :
    List (String × List AvailableTimeSlot) :=
  ranges.foldl groupStep []

/-- Whether a string is an ECMAScript array-index property key: the canonical
decimal form (no leading zero except `"0"` itself) of an integer
`0 ≤ n < 2^32 - 1`. `Object.entries` enumerates such keys first, in ascending
numeric order, before the remaining string keys in insertion order. -/
def isArrayIndexKey (s : String) : Bool :=
  !s.toList.isEmpty && s.toList.all Char.isDigit &&
    (s == "0" || s.toList.headD 'x' != '0') &&
    digitsToNat s.toList < 2 ^ 32 - 1

/-- Insert one entry into a list of entries sorted ascending by the numeric
value of the key. -/
def insertByKeyVal (p : String × List AvailableTimeSlot)
    (l : List (String × List AvailableTimeSlot)) :
    List (String × List AvailableTimeSlot) :=
  match l with
  | [] => [p]
  | q :: rest =>
    if digitsToNat p.1.toList ≤ digitsToNat q.1.toList then p :: q :: rest
    else q :: insertByKeyVal p rest

/-- Sort entries ascending by the numeric value of their keys (keys of a JS
object are unique, so ties cannot occur). -/
def sortByKeyVal (l : List (String × List AvailableTimeSlot)) :
    List (String × List AvailableTimeSlot) :=
  l.foldr insertByKeyVal []

/-- `Object.entries` on a plain object whose properties were created in the
order of `m`: array-index keys first in ascending numeric order, then the
remaining keys in insertion order (ECMAScript OrdinaryOwnPropertyKeys). -/
def objectEntries (m : List (String × List AvailableTimeSlot)) :
    List (String × List AvailableTimeSlot) :=
  sortByKeyVal (m.filter (fun p => isArrayIndexKey p.1)) ++
    m.filter (fun p => !isArrayIndexKey p.1)

/-- `formatTimeRanges` (StudioAvailabilityResults.tsx lines 200-213 and
AvailabilityTimeSlots.tsx lines 15-28): group by `roomName` with lodash
`groupBy`, enumerate the groups with `Object.entries`, render each slot as
`` `${slot.start}〜${slot.end}` `` and display a falsy (empty) room name as
`"指定なし"`. -/
def formatTimeRanges (ranges : List AvailableTimeSlot) :
    List GroupedAvailability :=
  (objectEntries (groupByRoom ranges)).map (fun p =>
    { roomName := if p.1 == "" then "指定なし" else p.1,
      timeRanges := p.2.map (fun slot => slot.start ++ "〜" ++ slot.«end») })

/-- The grouping helper as the spec describes it (§4.2, §8.5): groups in
order of first appearance of each `roomName`, each group's slots rendered as
`"{start}〜{end}"` in input order, empty room name displayed as the literal
placeholder. Differs from `formatTimeRanges` only in not applying the
`Object.entries` array-index key reordering. -/
def specFormatTimeRanges (ranges : List AvailableTimeSlot) :
    List GroupedAvailability :=
  (groupByRoom ranges).map (fun p =>
    { roomName := if p.1 == "" then "指定なし" else p.1,
      timeRanges := p.2.map (fun slot => slot.start ++ "〜" ++ slot.«end») })

/-! ### Structural lemmas about the batch loop -/

/-- With `BATCH_SIZE = 1`, the loop's slices from position `i` are the
singletons of the remaining studios, in order. -/
theorem batchSlices_eq (studios : List Studio) (i : Nat) :
    batchSlices studios i = (studios.drop i).map (fun s => [s]) := by
  rw [batchSlices]
  by_cases h : i < studios.length
  · rw [if_pos h]
    have hrec := batchSlices_eq studios (i + BATCH_SIZE)
    have hd : studios.drop i = studios[i] :: studios.drop (i + 1) :=
      List.drop_eq_getElem_cons h
    simp only [BATCH_SIZE] at hrec ⊢
    rw [hrec, hd]
    rfl
  · rw [if_neg h]
    rw [List.drop_eq_nil_of_le (Nat.le_of_not_lt h)]
    rfl
termination_by studios.length - i
decreasing_by simp [BATCH_SIZE]; omega

/-- A completed run reports, in order, exactly one outcome per input studio:
the outcome of that studio's own request. -/
theorem runOutcomes_eq_map (backend : Backend) (w : QueryArgs)
    (studios : List Studio) :
    runOutcomes backend w studios =
      studios.map (fun s => (s, processStudio backend w s)) := by
  rw [runOutcomes, batchSlices_eq]
  simp only [List.drop_zero]
  induction studios with
  | nil => rfl
  | cons s rest ih => simp only [List.map_cons, List.flatten_cons, ih, processBatch]; rfl

/-- With `BATCH_SIZE = 1`, the schedule from position `i` is the singleton
batches of the remaining studios with one `sleep FETCH_DELAY` between
consecutive batches. -/
theorem scheduleEvents_eq (studios : List Studio) (i : Nat) :
    scheduleEvents studios i =
      List.intersperse (ScheduleEvent.sleep FETCH_DELAY)
        ((studios.drop i).map (fun s => ScheduleEvent.batch [s])) := by
  rw [scheduleEvents]
  by_cases h : i < studios.length
  · rw [if_pos h]
    have hd : studios.drop i = studios[i] :: studios.drop (i + 1) :=
      List.drop_eq_getElem_cons h
    by_cases h2 : i + BATCH_SIZE < studios.length
    · rw [if_pos h2]
      have hrec := scheduleEvents_eq studios (i + BATCH_SIZE)
      have h2' : i + 1 < studios.length := by simpa [BATCH_SIZE] using h2
      have hd2 : studios.drop (i + 1) = studios[i + 1] :: studios.drop (i + 2) :=
        List.drop_eq_getElem_cons h2'
      simp only [BATCH_SIZE] at hrec ⊢
      rw [hrec, hd, hd2]
      rfl
    · rw [if_neg h2]
      have hrec := scheduleEvents_eq studios (i + BATCH_SIZE)
      have hnil : studios.drop (i + 1) = [] :=
        List.drop_eq_nil_of_le (by simp only [BATCH_SIZE] at h2; omega)
      simp only [BATCH_SIZE] at hrec ⊢
      rw [hrec, hd, hnil]
      rfl
  · rw [if_neg h]
    rw [List.drop_eq_nil_of_le (Nat.le_of_not_lt h)]
    rfl
termination_by studios.length - i
decreasing_by all_goals simp [BATCH_SIZE]; omega

/-! ### Progress arithmetic -/

/-- Each reported outcome adds exactly `100 / totalStudios` to the progress,
whether or not it carries an error. -/
theorem applyResult_progress (N : Nat) (st : AggState) (r : FetchResult) :
    (applyResult N st r).progress = st.progress + 100 / (N : ℚ) := by
  cases h : r.error <;> simp [applyResult, h]

/-- Folding a list of outcomes adds `100 / N` once per outcome. -/
theorem foldl_applyResult_progress (N : Nat) (l : List (Studio × FetchResult))
    (st : AggState) :
    (l.foldl (fun st p => applyResult N st p.2) st).progress
      = st.progress + l.length * (100 / (N : ℚ)) := by
  induction l generalizing st with
  | nil => simp
  | cons r rest ih =>
    rw [List.foldl_cons, ih, applyResult_progress, List.length_cons]
    push_cast
    ring

/-- The progress after `k` reported outcomes is `min k N` increments of
`100 / N`. -/
theorem stateAfter_progress (backend : Backend) (w : QueryArgs)
    (studios : List Studio) (k : Nat) :
    (stateAfter backend w studios k).progress
      = (min k studios.length : Nat) * (100 / (studios.length : ℚ)) := by
  rw [stateAfter, foldl_applyResult_progress]
  have hlen : (runOutcomes backend w studios).length = studios.length := by
    rw [runOutcomes_eq_map, List.length_map]
  rw [List.length_take, hlen, resetState]
  simp

/-- The final state, with the (well-founded) batch loop replaced by its
structural `map` form; used to evaluate concrete runs. -/
theorem runFinalState_eq (backend : Backend) (w : QueryArgs)
    (studios : List Studio) :
    runFinalState backend w studios =
      { (studios.map (fun s => (s, processStudio backend w s))).foldl
          (fun st p => applyResult studios.length st p.2) resetState
        with loading := false } := by
  rw [runFinalState, runOutcomes_eq_map]

/-! ### Counting outcomes per studio id -/

/-- Under pairwise-distinct studio ids, a run's outcome list contains exactly
one entry whose requesting studio has a given member's id. -/
theorem runOutcomes_count_id (backend : Backend) (w : QueryArgs)
    (studios : List Studio) (s : Studio)
    (hnd : (studios.map (fun t => t.id)).Nodup) (hs : s ∈ studios) :
    ((runOutcomes backend w studios).filter
      (fun p => p.1.id == s.id)).length = 1 := by
  rw [runOutcomes_eq_map, ← List.countP_eq_length_filter, List.countP_map]
  have hcount : (studios.map (fun t => t.id)).count s.id = 1 :=
    List.count_eq_one_of_mem hnd (List.mem_map.mpr ⟨s, hs, rfl⟩)
  rw [List.count_eq_countP, List.countP_map] at hcount
  exact hcount

/-! ### Keys produced by the grouping helper -/

/-- Every key produced by one `groupStep` is either a key of the accumulator
or the stepped slot's room name. -/
theorem groupStep_keys (acc : List (String × List AvailableTimeSlot))
    (slot : AvailableTimeSlot) (q : String × List AvailableTimeSlot)
    (hq : q ∈ groupStep acc slot) :
    (∃ r ∈ acc, q.1 = r.1) ∨ q.1 = slot.roomName := by
  rw [groupStep] at hq
  split at hq
  · obtain ⟨r, hr, hrq⟩ := List.mem_map.mp hq
    left
    refine ⟨r, hr, ?_⟩
    by_cases h : r.1 == slot.roomName
    · rw [if_pos h] at hrq
      rw [← hrq]
    · rw [if_neg h] at hrq
      rw [hrq]
  · rcases List.mem_append.mp hq with h | h
    · left; exact ⟨q, h, rfl⟩
    · right
      have : q = (slot.roomName, [slot]) := List.mem_singleton.mp h
      rw [this]

/-- Every key of the lodash grouping of `ranges` is the room name of some
slot of `ranges`. -/
theorem groupByRoom_keys (ranges : List AvailableTimeSlot) :
    ∀ q ∈ groupByRoom ranges, ∃ slot ∈ ranges, q.1 = slot.roomName := by
  rw [groupByRoom]
  suffices h : ∀ (acc : List (String × List AvailableTimeSlot)),
      ∀ q ∈ ranges.foldl groupStep acc,
        (∃ r ∈ acc, q.1 = r.1) ∨ ∃ slot ∈ ranges, q.1 = slot.roomName by
    intro q hq
    rcases h [] q hq with ⟨r, hr, _⟩ | hgood
    · cases hr
    · exact hgood
  induction ranges with
  | nil =>
    intro acc q hq
    exact Or.inl ⟨q, hq, rfl⟩
  | cons slot rest ih =>
    intro acc q hq
    rw [List.foldl_cons] at hq
    rcases ih (groupStep acc slot) q hq with ⟨r, hr, hqr⟩ | ⟨slot2, hslot2, hname⟩
    · rcases groupStep_keys acc slot r hr with ⟨r2, hr2, hrr2⟩ | hrname
      · exact Or.inl ⟨r2, hr2, hqr.trans hrr2⟩
      · exact Or.inr ⟨slot, List.mem_cons_self slot rest, hqr.trans hrname⟩
    · exact Or.inr ⟨slot2, List.mem_cons_of_mem slot hslot2, hname⟩

/-- When no key of the built object is an array-index string,
`Object.entries` enumerates the properties in insertion order. -/
theorem objectEntries_of_no_index (m : List (String × List AvailableTimeSlot))
    (h : ∀ p ∈ m, isArrayIndexKey p.1 = false) :
    objectEntries m = m := by
  rw [objectEntries]
  have h1 : m.filter (fun p => isArrayIndexKey p.1) = [] := by
    apply List.filter_eq_nil_iff.mpr
    intro a ha
    rw [h a ha]
    exact Bool.false_ne_true
  have h2 : m.filter (fun p => !isArrayIndexKey p.1) = m := by
    apply List.filter_eq_self.mpr
    intro a ha
    rw [h a ha]
    rfl
  rw [h1, h2, sortByKeyVal]
  rfl

/-! ### Concrete fixtures used by witnesses and counterexamples -/

/-- A concrete query window: 2025-01-15, 10:00-18:00, 2 hours. -/
def wEx : QueryArgs := ⟨"2025-01-15", "10:00", "18:00", 2⟩

/-- A concrete studio with id 1. -/
def studioOne : Studio := ⟨1, "スタジオA", "東京都渋谷区1-1", "10:00-22:00", "前日"⟩

/-- A concrete studio with id 2. -/
def studioTwo : Studio := ⟨2, "スタジオB", "東京都新宿区2-2", "09:00-23:00", "当日"⟩

/-- A concrete available slot. -/
def slotEx : AvailableTimeSlot := ⟨"10:00", "12:00", "Aスタ", false⟩

/-- A backend on which studio 1's request times out (request sent, no
response) and every other request succeeds, echoing the requested id and
returning one slot. -/
def backendMixed : Backend := fun req =>
  if req.studioId = 1 then
    .failure ⟨"timeout of 10000ms exceeded", some "ECONNABORTED", none, true⟩
  else
    .success ⟨toString req.studioId, "スタジオB", req.date, [slotEx], "Asia/Tokyo"⟩

/-! ### C1 — completeness of a run -/

/-- **C1**: for an input studio list of size N (1 ≤ N ≤ 5) with pairwise
distinct ids, a completed run produces exactly N outcomes: the outcome list
pairs each input studio, in order, with the outcome of its own request
(success of the HTTP fetch or the catch-branch failure), so no studio is
dropped, and each input studio id labels exactly one outcome. -/
theorem c1_completeness (backend : Backend) (w : QueryArgs)
    (studios : List Studio) (_h1 : 1 ≤ studios.length)
    (_h5 : studios.length ≤ 5)
    (hnd : (studios.map (fun t => t.id)).Nodup) :
    (runOutcomes backend w studios).length = studios.length ∧
    (runOutcomes backend w studios).map Prod.fst = studios ∧
    ∀ s ∈ studios,
      ((runOutcomes backend w studios).filter
        (fun p => p.1.id == s.id)).length = 1 := by
  refine ⟨?_, ?_, ?_⟩
  · rw [runOutcomes_eq_map, List.length_map]
  · rw [runOutcomes_eq_map, List.map_map]
    exact List.map_id studios
  · intro s hs
    exact runOutcomes_count_id backend w studios s hnd hs

/-- Witness for C1 on a concrete two-studio run (one failing, one
succeeding studio). -/
theorem c1_completeness_witness :
    (runOutcomes backendMixed wEx [studioOne, studioTwo]).length
        = [studioOne, studioTwo].length ∧
    (runOutcomes backendMixed wEx [studioOne, studioTwo]).map Prod.fst
        = [studioOne, studioTwo] ∧
    ∀ s ∈ [studioOne, studioTwo],
      ((runOutcomes backendMixed wEx [studioOne, studioTwo]).filter
        (fun p => p.1.id == s.id)).length = 1 :=
  c1_completeness backendMixed wEx [studioOne, studioTwo]
    (by decide) (by decide) (by decide)

/-! ### C2 — per-studio failure isolation -/

/-- **C2**: failures are isolated per studio. If studio `a`'s fetch fails
with `ApiError e` and studio `b`'s succeeds with data `d`, then — whatever
the backend does on every other studio — `b`'s success outcome is present in
the completed run, `a`'s failure is recorded as a failure outcome against
`a`'s own id and name (never thrown out of the aggregator), and the run
resolves with an outcome for every studio. -/
theorem c2_isolation (backend : Backend) (w : QueryArgs)
    (studios : List Studio) (a b : Studio) (ha : a ∈ studios)
    (hb : b ∈ studios) (e : ApiError) (d : StudioAvailability)
    (hfail : fetchStudioAvailability backend a.id w.date w.start w.«end» w.duration
      = .error e)
    (hsucc : fetchStudioAvailability backend b.id w.date w.start w.«end» w.duration
      = .ok d) :
    (b, ⟨d, none⟩) ∈ runOutcomes backend w studios ∧
    (a, ⟨⟨some a.id, a.name, []⟩,
        some ⟨e.message, if e.code = "" then "UNKNOWN_ERROR" else e.code⟩⟩)
      ∈ runOutcomes backend w studios ∧
    (runOutcomes backend w studios).length = studios.length := by
  refine ⟨?_, ?_, by rw [runOutcomes_eq_map, List.length_map]⟩
  · rw [runOutcomes_eq_map]
    refine List.mem_map.mpr ⟨b, hb, ?_⟩
    rw [processStudio, hsucc]
  · rw [runOutcomes_eq_map]
    refine List.mem_map.mpr ⟨a, ha, ?_⟩
    rw [processStudio, hfail]

/-- Witness for C2: on `backendMixed`, studio 1 times out and studio 2
succeeds; studio 2's result is present and studio 1's failure is recorded
against studio 1. -/
theorem c2_isolation_witness :
    (studioTwo, ⟨⟨some 2, "スタジオB", [slotEx]⟩, none⟩)
      ∈ runOutcomes backendMixed wEx [studioOne, studioTwo] ∧
    (studioOne, ⟨⟨some studioOne.id, studioOne.name, []⟩,
        some ⟨"サーバーとの接続に失敗しました",
          if ("UNKNOWN_ERROR" : String) = "" then "UNKNOWN_ERROR" else "UNKNOWN_ERROR"⟩⟩)
      ∈ runOutcomes backendMixed wEx [studioOne, studioTwo] ∧
    (runOutcomes backendMixed wEx [studioOne, studioTwo]).length
      = ([studioOne, studioTwo] : List Studio).length :=
  c2_isolation backendMixed wEx [studioOne, studioTwo] studioOne studioTwo
    (by decide) (by decide) ⟨"サーバーとの接続に失敗しました", "UNKNOWN_ERROR"⟩
    ⟨some 2, "スタジオB", [slotEx]⟩ (by rfl) (by rfl)

/-! ### C4 — progress reporting -/

/-- **C4**: over a run with N studios (1 ≤ N ≤ 5), the reported progress is
non-decreasing in the number of reported outcomes, each resolved outcome
(success or failure alike) adds exactly `100 / N`, and when the run
completes the progress equals exactly 100. -/
theorem c4_progress (backend : Backend) (w : QueryArgs)
    (studios : List Studio) (h1 : 1 ≤ studios.length)
    (_h5 : studios.length ≤ 5) :
    (∀ k k', k ≤ k' →
      (stateAfter backend w studios k).progress
        ≤ (stateAfter backend w studios k').progress) ∧
    (∀ k < studios.length,
      (stateAfter backend w studios (k + 1)).progress
        = (stateAfter backend w studios k).progress
            + 100 / (studios.length : ℚ)) ∧
    (runFinalState backend w studios).progress = 100 := by
  have hN0 : (studios.length : ℚ) ≠ 0 := by
    have h0 : 0 < studios.length := h1
    exact_mod_cast h0.ne'
  refine ⟨?_, ?_, ?_⟩
  · intro k k' hkk
    rw [stateAfter_progress, stateAfter_progress]
    apply mul_le_mul_of_nonneg_right
    · exact_mod_cast min_le_min hkk (le_refl studios.length)
    · positivity
  · intro k hk
    rw [stateAfter_progress, stateAfter_progress,
        min_eq_left (by omega), min_eq_left (by omega)]
    push_cast
    ring
  · rw [runFinalState]
    rw [foldl_applyResult_progress]
    rw [runOutcomes_eq_map, List.length_map, resetState]
    field_simp

/-- Witness for C4 on a concrete two-studio run. -/
theorem c4_progress_witness :
    (stateAfter backendMixed wEx [studioOne, studioTwo] 1).progress
      ≤ (stateAfter backendMixed wEx [studioOne, studioTwo] 2).progress ∧
    (runFinalState backendMixed wEx [studioOne, studioTwo]).progress = 100 :=
  ⟨(c4_progress backendMixed wEx [studioOne, studioTwo] (by decide) (by decide)).1
      1 2 (by decide),
   (c4_progress backendMixed wEx [studioOne, studioTwo] (by decide) (by decide)).2.2⟩

/-! ### C6 — batch schedule -/

/-- **C6**: a run partitions the studio list into batches of the fixed size
`BATCH_SIZE = 1` and awaits them strictly in submission order (the loop body
is sequential, so batches never overlap), with a fixed
`FETCH_DELAY = 200` ms sleep between consecutive batches and none after the
last: the awaited event sequence is exactly the singleton batches in input
order interspersed with `sleep 200`. -/
theorem c6_batchSchedule (studios : List Studio) :
    scheduleEvents studios 0 =
      List.intersperse (ScheduleEvent.sleep 200)
        (studios.map (fun s => ScheduleEvent.batch [s])) ∧
    batchSlices studios 0 = studios.map (fun s => [s]) := by
  constructor
  · rw [scheduleEvents_eq]
    rfl
  · rw [batchSlices_eq]
    rfl

/-! ### C8 — deterministic re-run -/

/-- The outcome of one studio's request depends only on the backend's
response to that studio's request. -/
theorem processStudio_congr (b₁ b₂ : Backend) (w : QueryArgs) (s : Studio)
    (h : b₁ (mkRequest w s) = b₂ (mkRequest w s)) :
    processStudio b₁ w s = processStudio b₂ w s := by
  rw [mkRequest] at h
  rw [processStudio, processStudio, fetchStudioAvailability,
      fetchStudioAvailability, apiClientGet, apiClientGet, h]

/-- **C8**: a run is a deterministic function of its inputs and the
backend's responses to the requests it issues: two runs over the same
`(studios, window)` whose backends answer every issued request identically
produce identical outcome lists and identical final states. In particular,
re-running the same input against a deterministic backend yields the same
per-studio successes (same `availableRanges`) and failures (same messages
and codes) both times. -/
theorem c8_deterministicRerun (w : QueryArgs) (studios : List Studio)
    (b₁ b₂ : Backend)
    (h : ∀ s ∈ studios, b₁ (mkRequest w s) = b₂ (mkRequest w s)) :
    runOutcomes b₁ w studios = runOutcomes b₂ w studios ∧
    runFinalState b₁ w studios = runFinalState b₂ w studios := by
  have houtcomes : runOutcomes b₁ w studios = runOutcomes b₂ w studios := by
    rw [runOutcomes_eq_map, runOutcomes_eq_map]
    apply List.map_congr_left
    intro s hs
    rw [processStudio_congr b₁ b₂ w s (h s hs)]
  exact ⟨houtcomes, by rw [runFinalState, runFinalState, houtcomes]⟩

/-- A second backend that agrees with `backendMixed` on the issued requests
of the witness run but differs on other requests (other ids succeed with no
slots instead of one). -/
def backendMixedVariant : Backend := fun req =>
  if req.studioId = 1 then
    .failure ⟨"timeout of 10000ms exceeded", some "ECONNABORTED", none, true⟩
  else if req.studioId = 2 then
    .success ⟨toString req.studioId, "スタジオB", req.date, [slotEx], "Asia/Tokyo"⟩
  else
    .success ⟨toString req.studioId, "スタジオB", req.date, [], "Asia/Tokyo"⟩

/-- Witness for C8: the two backends agree on the requests issued for
studios 1 and 2, so the two runs coincide. -/
theorem c8_deterministicRerun_witness :
    runOutcomes backendMixed wEx [studioOne, studioTwo]
      = runOutcomes backendMixedVariant wEx [studioOne, studioTwo] ∧
    runFinalState backendMixed wEx [studioOne, studioTwo]
      = runFinalState backendMixedVariant wEx [studioOne, studioTwo] :=
  c8_deterministicRerun wEx [studioOne, studioTwo] backendMixed backendMixedVariant
    (by decide)

/-! ### C3 — stale-run discard (absent in the code) -/

/-- Backend of the stale run 1: every request succeeds, echoing the
requested id, with one slot. -/
def backendRunOne : Backend := fun req =>
  .success ⟨toString req.studioId, "スタジオA", req.date, [slotEx], "Asia/Tokyo"⟩

/-- **C3** (code bug): the source has no run-identity guard — the
`onProgress` closure of a run calls the component's state setters
unconditionally, so when run 1's request for `studioOne` resolves after the
caller has started run 2 (over the different studio list `[studioTwo]`),
the late callback performs exactly `applyResult` on run 2's freshly reset
state: run 1's `StudioAvailability` lands in run 2's `availabilityData`, and
run 2's progress counter is bumped by `100 / 1` for a studio that is not
even in run 2's list. This contradicts the claimed stale-run discard. -/
theorem c3_staleRunLeak :
    (applyResult ([studioTwo] : List Studio).length resetState
        (processStudio backendRunOne wEx studioOne)).availabilityData
      = [⟨some 1, "スタジオA", [slotEx]⟩] ∧
    (applyResult ([studioTwo] : List Studio).length resetState
        (processStudio backendRunOne wEx studioOne)).progress = 100 ∧
    studioOne ∉ ([studioTwo] : List Studio) ∧
    (∀ a ∈ (applyResult ([studioTwo] : List Studio).length resetState
        (processStudio backendRunOne wEx studioOne)).availabilityData,
      a.studioId = some studioOne.id) := by
  refine ⟨by decide, ?_, by decide, by decide⟩
  rw [applyResult_progress]
  norm_num [resetState]

/-! ### C5 — grouping/formatting -/

/-- A slot from 10:00 to 11:00 in the given room. -/
def slotRoom (r : String) : AvailableTimeSlot := ⟨"10:00", "11:00", r, false⟩

/-- **C5 counterexample**: when room names are array-index strings,
`Object.entries` enumerates the groups in ascending numeric key order, not
in order of first appearance: with input rooms `"1"` then `"0"`, the group
of room `"0"` comes first although room `"1"` appears first. -/
theorem c5_grouping_counterexample :
    formatTimeRanges [slotRoom "1", slotRoom "0"]
      = [⟨"0", ["10:00〜11:00"]⟩, ⟨"1", ["10:00〜11:00"]⟩] ∧
    specFormatTimeRanges [slotRoom "1", slotRoom "0"]
      = [⟨"1", ["10:00〜11:00"]⟩, ⟨"0", ["10:00〜11:00"]⟩] ∧
    formatTimeRanges [slotRoom "1", slotRoom "0"]
      ≠ specFormatTimeRanges [slotRoom "1", slotRoom "0"] :=
  ⟨by decide, by decide, by decide⟩

/-- **C5 (amended)**: provided no slot's room name is an ECMAScript
array-index string (canonical decimal integer below 2^32 - 1; such keys are
enumerated first, in ascending numeric order), the display helper groups
slots by room name in order of first appearance, renders each slot of a
group as `"{start}〜{end}"` preserving input order, and shows an empty room
name as the literal placeholder — i.e. it agrees with the spec-described
grouping `specFormatTimeRanges`; empty input yields empty output
unconditionally. -/
theorem c5_grouping (ranges : List AvailableTimeSlot)
    (h : ∀ slot ∈ ranges, isArrayIndexKey slot.roomName = false) :
    formatTimeRanges ranges = specFormatTimeRanges ranges ∧
    formatTimeRanges ([] : List AvailableTimeSlot) = [] := by
  refine ⟨?_, by rfl⟩
  rw [formatTimeRanges, specFormatTimeRanges, objectEntries_of_no_index]
  intro p hp
  obtain ⟨slot, hslot, heq⟩ := groupByRoom_keys ranges p hp
  rw [heq]
  exact h slot hslot

/-- The flat slot list of the spec's worked example (§8.5). -/
def specExampleSlots : List AvailableTimeSlot :=
  [⟨"10:00", "12:00", "A", false⟩, ⟨"14:00", "15:00", "A", false⟩,
   ⟨"09:00", "10:00", "B", false⟩]

/-- Witness for the amended C5 on the spec's worked example, including the
expected grouped output. -/
theorem c5_grouping_witness :
    (formatTimeRanges specExampleSlots = specFormatTimeRanges specExampleSlots ∧
      formatTimeRanges ([] : List AvailableTimeSlot) = []) ∧
    formatTimeRanges specExampleSlots
      = [⟨"A", ["10:00〜12:00", "14:00〜15:00"]⟩, ⟨"B", ["09:00〜10:00"]⟩] :=
  ⟨c5_grouping specExampleSlots (by decide), by decide⟩

/-! ### C7 — error taxonomy mapping -/

/-- Every rejection of `apiClient.get` is a plain `Error`: the response
interceptor rewraps each axios error before callers see it, so the
`isAxiosError` branch of `fetchStudioAvailability` — the only code that
would surface a structured server error's message and code verbatim — is
unreachable. -/
theorem apiClientGet_error_plain (backend : Backend) (req : ApiRequest)
    (e : JsError) (h : apiClientGet backend req = .error e) :
    ∃ pe : PlainError, e = .plain pe := by
  rw [apiClientGet] at h
  cases hb : backend req with
  | success d =>
    rw [hb] at h
    cases h
  | failure ae =>
    rw [hb] at h
    exact ⟨interceptReject ae, (Except.error.inj h).symm⟩

/-- A backend whose server replies 404 with the structured error payload
`{ status: "error", error: { code: "STUDIO_NOT_FOUND", message:
"指定されたスタジオが見つかりません" } }` (and no top-level `message`
field). -/
def backendServerError : Backend := fun _ =>
  .failure ⟨"Request failed with status code 404", some "ERR_BAD_REQUEST",
    some ⟨404, ⟨none,
      some ⟨"STUDIO_NOT_FOUND", "指定されたスタジオが見つかりません"⟩⟩⟩,
    true⟩

/-- A backend whose requests never reach the server (request sent, no
response). -/
def backendNetworkError : Backend := fun _ =>
  .failure ⟨"Network Error", some "ERR_NETWORK", none, true⟩

/-- **C7** (code bug): the network-error half of the claim holds — an
unreachable-server failure surfaces `"サーバーとの接続に失敗しました"` — but
the server-error half does not: for a structured error payload the surfaced
failure is the interceptor's generic `"サーバーエラーが発生しました"` with
code `"UNKNOWN_ERROR"`, not the server's message and code verbatim, because
the interceptor rewraps the axios error into a plain `Error` before
`fetchStudioAvailability`'s verbatim-surfacing branch can see it. -/
theorem c7_errorTaxonomy :
    (processStudio backendNetworkError wEx studioOne).error
      = some ⟨"サーバーとの接続に失敗しました", "UNKNOWN_ERROR"⟩ ∧
    (processStudio backendServerError wEx studioOne).error
      = some ⟨"サーバーエラーが発生しました", "UNKNOWN_ERROR"⟩ ∧
    backendServerError (mkRequest wEx studioOne)
      = .failure ⟨"Request failed with status code 404", some "ERR_BAD_REQUEST",
          some ⟨404, ⟨none,
            some ⟨"STUDIO_NOT_FOUND", "指定されたスタジオが見つかりません"⟩⟩⟩,
          true⟩ ∧
    (processStudio backendServerError wEx studioOne).error
      ≠ some ⟨"指定されたスタジオが見つかりません", "STUDIO_NOT_FOUND"⟩ :=
  ⟨by rfl, by rfl, by rfl, by decide⟩

/-! ### C9 — zero slots is a success, distinct from a fetch error -/

/-- A backend that succeeds on every request, echoing the requested id, with
zero available slots (fully booked). -/
def backendFullyBooked : Backend := fun req =>
  .success ⟨toString req.studioId, "スタジオB", req.date, [], "Asia/Tokyo"⟩

/-- **C9**: a per-studio result is a success (no error recorded) exactly
when the HTTP fetch succeeded, with its zero-or-more slots; otherwise it is
a failure record with message and code. The card badge shows a successful
zero-slot studio as `"満室"` (confirmed full) and an errored studio as
`"取得失敗"`, which are distinct; concretely, a completed fully-booked run
displays `"満室"` while a failed fetch displays `"取得失敗"`. -/
theorem c9_zeroSlotsIsSuccess (backend : Backend) (w : QueryArgs) (s : Studio) :
    ((processStudio backend w s).error = none ↔
      ∃ d, fetchStudioAvailability backend s.id w.date w.start w.«end» w.duration
        = .ok d) ∧
    (∀ n : Nat, availabilityBadge true n = "取得失敗") ∧
    availabilityBadge false 0 = "満室" ∧
    ("満室" : String) ≠ "取得失敗" ∧
    displayedBadge (runFinalState backendFullyBooked wEx [studioTwo]) studioTwo
      = "満室" ∧
    displayedBadge (runFinalState backendMixed wEx [studioOne, studioTwo]) studioOne
      = "取得失敗" := by
  refine ⟨?_, fun n => rfl, rfl, by decide,
    by rw [runFinalState_eq]; decide, by rw [runFinalState_eq]; decide⟩
  rw [processStudio]
  cases hf : fetchStudioAvailability backend s.id w.date w.start w.«end» w.duration with
  | ok d => simp
  | error e => simp

/-! ### C10 — success records the parsed server-echoed id -/

/-- A backend that echoes back the wrong id string `"999"` for every
request. -/
def backendEchoWrong : Backend := fun req =>
  .success ⟨"999", "スタジオX", req.date, [slotEx], "Asia/Tokyo"⟩

/-- A backend that echoes a non-numeric id string `"abc"` for every
request. -/
def backendEchoNaN : Backend := fun req =>
  .success ⟨"abc", "スタジオX", req.date, [slotEx], "Asia/Tokyo"⟩

/-- **C10**: on a successful fetch the stored `studioId` is `parseInt` of
the server-echoed string — not the requested studio's id — so an entry
matches the requesting studio only if the server echoes the same numeric id.
A strict-equality lookup by input id finds nothing when the stored id
differs; concretely, a server echoing `"999"` (or the non-numeric `"abc"`,
parsed to `NaN`) for studio 1 leaves studio 1 with no displayed
availability. -/
theorem c10_parsedServerId (backend : Backend) (w : QueryArgs) (s : Studio)
    (sd : SuccessData) (hresp : backend (mkRequest w s) = .success sd) :
    processStudio backend w s
      = ⟨⟨parseIntJS sd.studioId, sd.studioName, sd.availableRanges⟩, none⟩ ∧
    (∀ entry : StudioAvailability,
      jsStrictEq entry.studioId (some s.id) = false →
        [entry].find? (fun a => jsStrictEq a.studioId (some s.id)) = none) ∧
    (runFinalState backendEchoWrong wEx [studioOne]).availabilityData
      = [⟨some 999, "スタジオX", [slotEx]⟩] ∧
    displayedRanges (runFinalState backendEchoWrong wEx [studioOne]) studioOne
      = [] ∧
    (runFinalState backendEchoNaN wEx [studioOne]).availabilityData
      = [⟨none, "スタジオX", [slotEx]⟩] ∧
    displayedRanges (runFinalState backendEchoNaN wEx [studioOne]) studioOne
      = [] := by
  refine ⟨?_, ?_, by rw [runFinalState_eq]; decide, by rw [runFinalState_eq]; decide,
    by rw [runFinalState_eq]; decide, by rw [runFinalState_eq]; decide⟩
  · rw [mkRequest] at hresp
    rw [processStudio, fetchStudioAvailability, apiClientGet, hresp]
  · intro entry h
    simp [List.find?, h]

/-- Witness for C10: the general success-path conclusion applied to the
concrete wrong-echo backend. -/
theorem c10_parsedServerId_witness :
    processStudio backendEchoWrong wEx studioOne
      = ⟨⟨parseIntJS "999", "スタジオX", [slotEx]⟩, none⟩ ∧
    displayedRanges (runFinalState backendEchoWrong wEx [studioOne]) studioOne
      = [] :=
  ⟨(c10_parsedServerId backendEchoWrong wEx studioOne
      ⟨"999", "スタジオX", wEx.date, [slotEx], "Asia/Tokyo"⟩ (by rfl)).1,
   (c10_parsedServerId backendEchoWrong wEx studioOne
      ⟨"999", "スタジオX", wEx.date, [slotEx], "Asia/Tokyo"⟩ (by rfl)).2.2.2.1⟩

end StudioNavi
